import Mathlib

/-!
Verification of the cloudplaya client core (cloudplaya/client.py).

The development shallowly embeds the parts of `Client` that the checked
properties concern: the payload navigator (`_get_payload_data`), the request
dispatcher (`_get`), the paginated search engine (`_search_library`), the
criteria encoders (`_build_search_criteria`, `_build_sort_criteria`), the
request-id generator (`_make_request_id`) and the login flow (`authenticate`).

Python values appearing in request/response payloads are modelled by `PyData`
(dicts as association lists in insertion order, lists, strings, ints).
Raised Python exceptions are modelled by the `PyErr` error type of an
`Except PyErr` result.  Machine-level details (actual HTTP, regexes, files)
are abstracted at the boundary the source itself draws: the transport is a
function from the varying request field to a (status, parsed body) pair, and
a scanned page line is classified the way the source's regex table classifies
it.
-/

/-- PyData models the nested Python values of request and response payloads:
dicts with string keys (kept as association lists in insertion order),
lists, strings and integers. -/
inductive PyData : Type where
  | obj (fields : List (String × PyData))
  | list (items : List PyData)
  | str (s : String)
  | int (n : Int)

/-- PyErr models the Python exceptions the embedded code can raise.
`requestError` is `cloudplaya.client.RequestError` (fields `message`, `code`),
`keyError`/`typeError` are the built-in KeyError/TypeError, `urlError` a
network failure raised by `browser.open`, and `formNotFound` the
`mechanize` error raised by `browser.select_form` when no form matches. -/
inductive PyErr : Type where
  | typeError (msg : String)
  | keyError (key : String)
  | requestError (message code : PyData)
  | urlError
  | formNotFound

/-- RequestError construction as Python evaluates it: `RequestError.__init__`
is declared as `__init__(self, msg, code)` with no defaults, so a
construction with exactly two arguments yields the exception object, while
any other arity makes the `raise` statement itself fail with a TypeError. -/
def mkRequestError (args : List PyData) : PyErr :=
  match args with
  | [m, c] => PyErr.requestError m c
  | _ => PyErr.typeError "__init__() takes exactly 3 arguments"

/-- pyLookup is Python dict lookup on the association-list representation. -/
def pyLookup (fields : List (String × PyData)) (k : String) : Option PyData :=
  match fields with
  | [] => none
  | (key, v) :: rest => if key = k then some v else pyLookup rest k

/-- strElem models Python `k in somelist` for a string `k`: equality against
each element, where a string compares equal only to an equal string. -/
def strElem (k : String) : List PyData → Bool
  | [] => false
  | PyData.str s :: rest => s = k || strElem k rest
  | _ :: rest => strElem k rest

/-- strIn models Python `k in somestring`: substring containment. -/
def strIn : List Char → List Char → Bool
  | needle, [] => needle.isEmpty
  | needle, c :: rest => (c :: rest).take needle.length == needle || strIn needle rest

/-- pyContains models Python `key in data` for a string key: key membership
for dicts, element membership for lists, substring test for strings, and a
TypeError for integers. -/
def pyContains (d : PyData) (k : String) : Except PyErr Bool :=
  match d with
  | PyData.obj fields => Except.ok (fields.any (fun p => p.1 == k))
  | PyData.list items => Except.ok (strElem k items)
  | PyData.str s => Except.ok (strIn k.data s.data)
  | PyData.int _ => Except.error (PyErr.typeError "argument of type int is not iterable")

/-- pySubscript models Python `data[key]` for a string key: dict lookup
raising KeyError on a missing key, and TypeError for lists, strings, ints. -/
def pySubscript (d : PyData) (k : String) : Except PyErr PyData :=
  match d with
  | PyData.obj fields =>
    match pyLookup fields k with
    | some v => Except.ok v
    | none => Except.error (PyErr.keyError k)
  | _ => Except.error (PyErr.typeError "indices must be integers")

/-- pyIter models Python iteration `for item in data`: a list yields its
elements, a dict its keys, a string its characters (as 1-character strings),
and an integer raises TypeError. -/
def pyIter (d : PyData) : Except PyErr (List PyData) :=
  match d with
  | PyData.list items => Except.ok items
  | PyData.obj fields => Except.ok (fields.map (fun p => PyData.str p.1))
  | PyData.str s => Except.ok (s.data.map (fun c => PyData.str (String.mk [c])))
  | PyData.int _ => Except.error (PyErr.typeError "int object is not iterable")

/-- pyTruthy is Python truthiness on `PyData`: empty containers, the empty
string and zero are falsy. -/
def pyTruthy : PyData → Bool
  | PyData.obj fields => !fields.isEmpty
  | PyData.list items => !items.isEmpty
  | PyData.str s => !(s == "")
  | PyData.int n => !(n == 0)

/-- Client._get_payload_data: descend through `data` along `keys`; at each
level `if key not in data` the source runs
`raise RequestError('Missing key "%s" in response data' % key)` — a
one-argument construction of the two-argument `RequestError`, embedded
faithfully through `mkRequestError` — and otherwise rebinds
`data = data[key]`. -/
def getPayloadData : PyData → List String → Except PyErr PyData
  | data, [] => Except.ok data
  | data, key :: rest =>
    match pyContains data key with
    | Except.error e => Except.error e
    | Except.ok b =>
      if b then
        match pySubscript data key with
        | Except.error e => Except.error e
        | Except.ok v => getPayloadData v rest
      else
        Except.error (mkRequestError
          [PyData.str ("Missing key \"" ++ key ++ "\" in response data")])

/-- Client._get, response classification: given the transport's response as a
(status code, parsed body) pair, a status other than 200 reads
`result['Error']` and raises `RequestError(error['Message'], error['Code'])`;
a 200 status returns the parsed body unchanged. -/
def pyGet (status : Nat) (result : PyData) : Except PyErr PyData :=
  if status ≠ 200 then
    match pySubscript result "Error" with
    | Except.error e => Except.error e
    | Except.ok errBody =>
      match pySubscript errBody "Message" with
      | Except.error e => Except.error e
      | Except.ok msg =>
        match pySubscript errBody "Code" with
        | Except.error e => Except.error e
        | Except.ok code => Except.error (mkRequestError [msg, code])
  else
    Except.ok result

/-- SearchOutcome is the observable behaviour of one `_search_library`
generator run: `done calls items` for normal exhaustion, `raised` when an
exception escapes after some items were already yielded, `hang` when the
page-count fuel runs out before the remote signals exhaustion. `calls`
records, in order, the `nextResultsToken` value of each issued request. -/
inductive SearchOutcome (α : Type) : Type where
  | done (calls : List PyData) (items : List α)
  | raised (calls : List PyData) (items : List α) (e : PyErr)
  | hang

/-- Client._search_library, the `while 1` pagination loop.  Across
iterations the request body differs only in its `nextResultsToken` field
(searchReturnType, page size, criteria, columns and sort are fixed), so the
transport is modelled as a function `remote` from that token to the
(status, parsed body) pair; `wrap` is the `result_cls(self, item)`
construction applied to each yielded item; `fuel` bounds the number of
pages so the loop is total.  Each iteration dispatches through `pyGet`,
extracts `searchLibraryResponse`/`searchLibraryResult` and then
`searchReturnItemList` with the payload navigator, yields every item of the
page in order, then reads `search_results['nextResultsToken']` by plain
subscript and returns when that token is falsy. -/
def searchLibraryLoop {α : Type} (remote : PyData → Nat × PyData) (wrap : PyData → α) :
    Nat → PyData → SearchOutcome α
  | 0, _ => SearchOutcome.hang
  | fuel + 1, tok =>
    let resp := remote tok
    match pyGet resp.1 resp.2 with
    | Except.error e => SearchOutcome.raised [tok] [] e
    | Except.ok result =>
      match getPayloadData result ["searchLibraryResponse", "searchLibraryResult"] with
      | Except.error e => SearchOutcome.raised [tok] [] e
      | Except.ok searchResults =>
        match getPayloadData searchResults ["searchReturnItemList"] with
        | Except.error e => SearchOutcome.raised [tok] [] e
        | Except.ok itemsData =>
          match pyIter itemsData with
          | Except.error e => SearchOutcome.raised [tok] [] e
          | Except.ok items =>
            let yielded := items.map wrap
            match pySubscript searchResults "nextResultsToken" with
            | Except.error e => SearchOutcome.raised [tok] yielded e
            | Except.ok next =>
              if pyTruthy next then
                match searchLibraryLoop remote wrap fuel next with
                | SearchOutcome.done calls more =>
                  SearchOutcome.done (tok :: calls) (yielded ++ more)
                | SearchOutcome.raised calls more e =>
                  SearchOutcome.raised (tok :: calls) (yielded ++ more) e
                | SearchOutcome.hang => SearchOutcome.hang
              else
                SearchOutcome.done [tok] yielded

/-- Client._search_library entry point: the loop starts with
`next_results_token = ''`. -/
def searchLibrary {α : Type} (remote : PyData → Nat × PyData) (wrap : PyData → α)
    (fuel : Nat) : SearchOutcome α :=
  searchLibraryLoop remote wrap fuel (PyData.str "")

/-- mkPage builds the response envelope shape `_search_library` consumes:
`searchLibraryResponse → searchLibraryResult → {searchReturnItemList,
nextResultsToken}`. -/
def mkPage (items : List PyData) (nextTok : String) : PyData :=
  PyData.obj [("searchLibraryResponse", PyData.obj [("searchLibraryResult",
    PyData.obj [("searchReturnItemList", PyData.list items),
                ("nextResultsToken", PyData.str nextTok)])])]

/-- mkPageNoToken builds the same envelope as `mkPage` but with no
`nextResultsToken` field in the result object. -/
def mkPageNoToken (items : List PyData) : PyData :=
  PyData.obj [("searchLibraryResponse", PyData.obj [("searchLibraryResult",
    PyData.obj [("searchReturnItemList", PyData.list items)])])]

/-- Crit is one search criterion as the source passes it around: a Python
tuple of two fields (name, comparison) or three fields (name, comparison,
value). -/
inductive Crit : Type where
  | mk2 (a b : String)
  | mk3 (a b c : String)

/-- attrName is `item[0]` of a criterion tuple. -/
def Crit.attrName : Crit → String
  | Crit.mk2 a _ => a
  | Crit.mk3 a _ _ => a

/-- compType is `item[1]` of a criterion tuple. -/
def Crit.compType : Crit → String
  | Crit.mk2 _ b => b
  | Crit.mk3 _ b _ => b

/-- attrValue mirrors the source's `if len(item) == 2: value = ''` default:
a two-field tuple contributes the empty string, a three-field tuple
contributes `item[2]`. -/
def Crit.attrValue : Crit → String
  | Crit.mk2 _ _ => ""
  | Crit.mk3 _ _ c => c

/-- dictInsert is Python `data[k] = v` on the association-list dict
representation: overwrite in place when the key exists, append otherwise. -/
def dictInsert (d : List (String × String)) (k v : String) : List (String × String) :=
  if d.any (fun p => p.1 == k) then
    d.map (fun p => if p.1 == k then (k, v) else p)
  else d ++ [(k, v)]

/-- decCharsAux is the fuel-indexed worker for decimal rendering; the fuel
only makes the recursion structural and is always ample at use sites. -/
def decCharsAux : Nat → Nat → List Char
  | 0, _ => []
  | fuel + 1, n =>
    if n < 10 then [Nat.digitChar n]
    else decCharsAux fuel (n / 10) ++ [Nat.digitChar (n % 10)]

/-- decChars renders a natural number in decimal, as Python `'%d' % n`
does. -/
def decChars (n : Nat) : List Char :=
  decCharsAux (n + 1) n

/-- decStr is `decChars` packed into a string. -/
def decStr (n : Nat) : String :=
  String.mk (decChars n)

/-- memberKey is the source's `'%s.member.%d' % (key_prefix, i)`. -/
def memberKey (p : String) (i : Nat) : String :=
  p ++ ".member." ++ decStr i

/-- Client._build_search_criteria: for the `i`-th criterion (0-based
enumeration as in Python `enumerate`), write the three wire keys
`<prefix>.member.<i+1>.attributeName / .comparisonType / .attributeValue`
into the dict, in that order.  The source declares the prefix as a keyword
argument defaulting to `'searchCriteria'`; here it is always passed. -/
def buildSearchCriteria (search : List Crit) (keyPref : String) :
    List (String × String) :=
  search.enum.foldl (fun data ic =>
    let key := memberKey keyPref (ic.1 + 1)
    let data := dictInsert data (key ++ ".attributeName") ic.2.attrName
    let data := dictInsert data (key ++ ".comparisonType") ic.2.compType
    dictInsert data (key ++ ".attributeValue") ic.2.attrValue) []

/-- Client._build_sort_criteria: for the `i`-th (column, direction) pair,
write `sortCriteriaList.member.<i+1>.sortColumn / .sortType` into the dict,
in that order. -/
def buildSortCriteria (sort : List (String × String)) : List (String × String) :=
  sort.enum.foldl (fun data ic =>
    let key := memberKey "sortCriteriaList" (ic.1 + 1)
    let data := dictInsert data (key ++ ".sortColumn") ic.2.1
    dictInsert data (key ++ ".sortType") ic.2.2) []

/-- hexCharsAux is the fuel-indexed worker for lowercase hexadecimal
rendering; the fuel only makes the recursion structural and is always ample
at use sites. -/
def hexCharsAux : Nat → Nat → List Char
  | 0, _ => []
  | fuel + 1, n =>
    if n < 16 then [Nat.digitChar n]
    else hexCharsAux fuel (n / 16) ++ [Nat.digitChar (n % 16)]

/-- hexChars renders a natural number in lowercase hexadecimal digits,
matching the digits part of Python `hex(n)` for a non-negative `n`. -/
def hexChars (n : Nat) : List Char :=
  hexCharsAux (n + 1) n

/-- pyHexChars is Python `hex(n)` for a non-negative int: the characters
`0x` followed by the lowercase hexadecimal digits. -/
def pyHexChars (n : Nat) : List Char :=
  '0' :: 'x' :: hexChars n

/-- getRand embeds the body of `get_rand` inside `Client._make_request_id`:
`hex(int(math.floor((1 + random.random()) * 65536)))[3:]`.  The float draw
is modelled by its integer result `draw = int(floor((1 + random()) * 65536))`,
which always lies in `[65536, 131072)`; the slice `[3:]` then drops three
characters from the `hex` rendering. -/
def getRand (draw : Nat) : String :=
  String.mk ((pyHexChars draw).drop 3)

/-- makeRequestId is `Client._make_request_id`: seven `get_rand()` results
(the draws in call order) substituted into the literal pattern
`%s%s-%s-dmcp-%s-%s%s%s`. -/
def makeRequestId (draws : Fin 7 → Nat) : String :=
  getRand (draws 0) ++ getRand (draws 1) ++ "-" ++ getRand (draws 2) ++ "-dmcp-" ++
    getRand (draws 3) ++ "-" ++ getRand (draws 4) ++ getRand (draws 5) ++ getRand (draws 6)

/-- specSegment is a request-id segment as the specification describes it:
the random value rendered in lowercase hexadecimal without the `0x` prefix
(and nothing else stripped).  Modelled from the spec wording, for comparison
with `getRand`. -/
def specSegment (draw : Nat) : String :=
  String.mk (hexChars draw)

/-- specRequestId is the request identifier as the specification describes
it: seven `specSegment` values substituted into the same literal pattern.
Modelled from the spec wording, for comparison with `makeRequestId`. -/
def specRequestId (draws : Fin 7 → Nat) : String :=
  specSegment (draws 0) ++ specSegment (draws 1) ++ "-" ++ specSegment (draws 2) ++
    "-dmcp-" ++ specSegment (draws 3) ++ "-" ++ specSegment (draws 4) ++
    specSegment (draws 5) ++ specSegment (draws 6)

/-- pad4Hex is the four-digit zero-padded lowercase hexadecimal rendering of
a value below 65536. -/
def pad4Hex (m : Nat) : String :=
  String.mk [Nat.digitChar (m / 4096 % 16), Nat.digitChar (m / 256 % 16),
             Nat.digitChar (m / 16 % 16), Nat.digitChar (m % 16)]

/-- AuthField names the four amznMusic credential fields `authenticate`
scrapes: `customerId`, `tid`, `did`, `dtid`. -/
inductive AuthField : Type where
  | customerId
  | adpToken
  | deviceId
  | deviceType
deriving DecidableEq

/-- BodyLine is one stripped line of the post-login page body, classified
the way the source's `vars_map` regex table classifies it.  The four
patterns are mutually exclusive (each requires its own literal field name
after `amznMusic`), so a line either matches exactly one pattern, with a
captured value, or matches none. -/
inductive BodyLine : Type where
  | matched (field : AuthField) (value : String)
  | plain

/-- SignInPage is the observable outcome of the browser steps of
`authenticate`: whether a form named `signIn` exists on the fetched page,
the lines of the body read after submitting it, and the cookies the
cookie jar accumulated. -/
structure SignInPage : Type where
  hasSignInForm : Bool
  body : List BodyLine
  cookies : List (String × String)

/-- Net is the network behaviour during one `authenticate` run: `down` when
`browser.open` fails (raising a transport-level exception), `up page`
when the login page round trip succeeds. -/
inductive Net : Type where
  | down
  | up (page : SignInPage)

/-- AuthVars is the source's `auth_vars` dict: the four fields, each
initially `None`. -/
structure AuthVars : Type where
  customer_id : Option String
  adp_token : Option String
  device_id : Option String
  device_type : Option String

/-- setField is `auth_vars[key] = m.group(1)`. -/
def setField (v : AuthVars) : AuthField → String → AuthVars
  | AuthField.customerId, s => { v with customer_id := some s }
  | AuthField.adpToken, s => { v with adp_token := some s }
  | AuthField.deviceId, s => { v with device_id := some s }
  | AuthField.deviceType, s => { v with device_type := some s }

/-- scanBody is the line scan of `authenticate`: every matching line
increments `found` and stores its captured value, and the loop breaks as
soon as `found == len(auth_vars)`, i.e. 4 — `found` counts match events,
not distinct fields. -/
def scanBody : List BodyLine → Nat → AuthVars → Nat × AuthVars
  | [], found, vars => (found, vars)
  | BodyLine.plain :: rest, found, vars => scanBody rest found vars
  | BodyLine.matched f val :: rest, found, vars =>
    let found := found + 1
    let vars := setField vars f val
    if found == 4 then (found, vars) else scanBody rest found vars

/-- countMatches counts the lines of a body that match one of the four
patterns. -/
def countMatches : List BodyLine → Nat
  | [] => 0
  | BodyLine.matched _ _ :: rest => countMatches rest + 1
  | BodyLine.plain :: rest => countMatches rest

/-- joinCookies is `'; '.join(['%s=%s' % (cookie.name, cookie.value) ...])`. -/
def joinCookies (cs : List (String × String)) : String :=
  String.intercalate "; " (cs.map (fun c => c.1 ++ "=" ++ c.2))

/-- SavedConfig is what `authenticate` persists to the config file on
success: the scraped variables plus the joined cookie string. -/
structure SavedConfig : Type where
  vars : AuthVars
  cookies : String

/-- authenticate is `Client.authenticate` over the abstracted browser
environment.  A network failure during `browser.open` propagates (the
source installs no handler); a page without a form named `signIn` makes
`browser.select_form` raise; otherwise the body is scanned, and
`found != 4` returns `False` before anything is written, while `found == 4`
writes the config file and returns `True`.  The result pairs the returned
boolean with the persisted state (`none` when nothing was written). -/
def authenticate (net : Net) : Except PyErr (Bool × Option SavedConfig) :=
  match net with
  | Net.down => Except.error PyErr.urlError
  | Net.up page =>
    if page.hasSignInForm then
      let scanned := scanBody page.body 0 ⟨none, none, none, none⟩
      if scanned.1 ≠ 4 then Except.ok (false, none)
      else Except.ok (true, some ⟨scanned.2, joinCookies page.cookies⟩)
    else Except.error PyErr.formNotFound

/-- ClientDefaults is the class-level state of `Client` the getter methods
read: the default search predicate lists and sort lists. -/
structure ClientDefaults : Type where
  SONG_SEARCH : List Crit
  ALBUM_SEARCH : List Crit
  ARTIST_SEARCH : List Crit
  DEFAULT_SONG_SORT : List (String × String)
  DEFAULT_ALBUM_SORT : List (String × String)
  DEFAULT_ARTIST_SORT : List (String × String)

/-- initDefaults is the literal class-attribute state of `Client`. -/
def initDefaults : ClientDefaults :=
  { SONG_SEARCH := [Crit.mk3 "keywords" "LIKE" "",
                    Crit.mk3 "assetType" "EQUALS" "AUDIO",
                    Crit.mk3 "status" "EQUALS" "AVAILABLE"],
    ALBUM_SEARCH := [Crit.mk3 "status" "EQUALS" "AVAILABLE"],
    ARTIST_SEARCH := [Crit.mk3 "status" "EQUALS" "AVAILABLE",
                      Crit.mk2 "trackStatus" "IS_NULL"],
    DEFAULT_SONG_SORT := [("sortTitle", "ASC")],
    DEFAULT_ALBUM_SORT := [("sortAlbumName", "ASC")],
    DEFAULT_ARTIST_SORT := [("sortArtistName", "ASC")] }

/-- getSongsCall models `Client.get_songs` up to its `_search_library`
call: the search list handed on is `self.SONG_SEARCH + search` — Python
list concatenation, which allocates a fresh list and mutates neither
operand — and the class state after the call is returned alongside.  The
source contains no assignment to any class attribute, so the state passes
through unchanged. -/
def getSongsCall (st : ClientDefaults) (search : List Crit) :
    List Crit × ClientDefaults :=
  (st.SONG_SEARCH ++ search, st)

/-- getAlbumsCall models `Client.get_albums` the same way:
`self.ALBUM_SEARCH + search`. -/
def getAlbumsCall (st : ClientDefaults) (search : List Crit) :
    List Crit × ClientDefaults :=
  (st.ALBUM_SEARCH ++ search, st)

/-- getArtistsCall models `Client.get_artists` the same way:
`self.ARTIST_SEARCH + search`. -/
def getArtistsCall (st : ClientDefaults) (search : List Crit) :
    List Crit × ClientDefaults :=
  (st.ARTIST_SEARCH ++ search, st)

/-- prependPage states how one iteration of the pagination loop composes
with the rest of the run: the current call and the current page's yielded
items are placed in front of whatever the continuation does. -/
def prependPage {α : Type} (tok : PyData) (yielded : List α) :
    SearchOutcome α → SearchOutcome α
  | SearchOutcome.done calls more => SearchOutcome.done (tok :: calls) (yielded ++ more)
  | SearchOutcome.raised calls more e => SearchOutcome.raised (tok :: calls) (yielded ++ more) e
  | SearchOutcome.hang => SearchOutcome.hang

/-- parseDec reads a digit string back as a number; it is the measure used
to show decimal rendering is injective. -/
def parseDec (l : List Char) : Nat :=
  l.foldl (fun a c => a * 10 + (c.toNat - 48)) 0

/-- pyLookupS is Python dict lookup on the flat string-to-string dicts the
criteria encoders build. -/
def pyLookupS (fields : List (String × String)) (k : String) : Option String :=
  match fields with
  | [] => none
  | (key, v) :: rest => if key = k then some v else pyLookupS rest k

/-- searchEntries lists, in insertion order, the three wire pairs the
`i`-th criterion contributes in `_build_search_criteria`. -/
def searchEntries (p : String) (ic : Nat × Crit) : List (String × String) :=
  [(memberKey p (ic.1 + 1) ++ ".attributeName", ic.2.attrName),
   (memberKey p (ic.1 + 1) ++ ".comparisonType", ic.2.compType),
   (memberKey p (ic.1 + 1) ++ ".attributeValue", ic.2.attrValue)]

/-- sortEntries lists, in insertion order, the two wire pairs the `i`-th
sort pair contributes in `_build_sort_criteria`. -/
def sortEntries (ic : Nat × (String × String)) : List (String × String) :=
  [(memberKey "sortCriteriaList" (ic.1 + 1) ++ ".sortColumn", ic.2.1),
   (memberKey "sortCriteriaList" (ic.1 + 1) ++ ".sortType", ic.2.2)]

/-- dictInsertKV is the fold step shared by the encoders. -/
def dictInsertKV (d : List (String × String)) (kv : String × String) :
    List (String × String) :=
  dictInsert d kv.1 kv.2

/-- pageItems1 is a concrete first page of 50 items. -/
def pageItems1 : List PyData :=
  List.replicate 50 (PyData.str "song1")

/-- pageItems2 is a concrete second page of 50 items. -/
def pageItems2 : List PyData :=
  List.replicate 50 (PyData.str "song2")

/-- pageItems3 is a concrete final page of 7 items. -/
def pageItems3 : List PyData :=
  List.replicate 7 (PyData.str "song3")

/-- scriptedRemote is the scripted transport of the pagination property:
three pages of 50, 50 and 7 items whose envelopes carry continuation
tokens `t1`, `t2` and the empty string. -/
def scriptedRemote : PyData → Nat × PyData := fun t =>
  match t with
  | PyData.str s =>
    if s = "" then (200, mkPage pageItems1 "t1")
    else if s = "t1" then (200, mkPage pageItems2 "t2")
    else (200, mkPage pageItems3 "")
  | _ => (200, PyData.obj [])

/-- tokenlessRemote is a transport whose result envelope carries no
`nextResultsToken` field at all. -/
def tokenlessRemote : PyData → Nat × PyData := fun _ =>
  (200, mkPageNoToken [PyData.str "only"])

/-- twoPageRemote is a transport whose first page carries the token `more`
and whose second page carries the empty token. -/
def twoPageRemote : PyData → Nat × PyData := fun t =>
  match t with
  | PyData.str s =>
    if s = "more" then (200, mkPage [PyData.str "b"] "")
    else (200, mkPage [PyData.str "a"] "more")
  | _ => (200, PyData.obj [])

/-- scanBody never stops before the fourth match: while fewer than four
match events remain in reach, the final `found` is the initial `found` plus
the number of matching lines. -/
theorem scanBody_count (body : List BodyLine) :
    ∀ (found : Nat) (vars : AuthVars), found + countMatches body < 4 →
      (scanBody body found vars).1 = found + countMatches body := by
  induction body with
  | nil =>
    intro found vars _
    simp [scanBody, countMatches]
  | cons l rest ih =>
    intro found vars h
    cases l with
    | plain =>
      simpa [scanBody, countMatches] using ih found vars (by simpa [countMatches] using h)
    | matched f v =>
      simp only [scanBody, countMatches] at h ⊢
      have hne : (found + 1 == 4) = false := by
        simp only [beq_eq_false_iff_ne]
        omega
      rw [hne]
      simp only [Bool.false_eq_true, if_false]
      rw [ih (found + 1) (setField vars f v) (by omega)]
      omega

/-- C10: get_songs, get_albums and get_artists combine the caller's search
list with the class-level defaults by Python list concatenation, which
allocates a fresh list; the class state is unchanged by a call, and a
repeated call observes the same defaults and builds the same combined
list. -/
theorem c10_defaults_never_mutated :
    ∀ (st : ClientDefaults) (s t : List Crit),
      (getSongsCall st s).2 = st ∧
      (getAlbumsCall st s).2 = st ∧
      (getArtistsCall st s).2 = st ∧
      (getSongsCall st s).1 = st.SONG_SEARCH ++ s ∧
      (getAlbumsCall st s).1 = st.ALBUM_SEARCH ++ s ∧
      (getArtistsCall st s).1 = st.ARTIST_SEARCH ++ s ∧
      (getSongsCall (getSongsCall st s).2 t).1 = st.SONG_SEARCH ++ t ∧
      (getAlbumsCall (getAlbumsCall st s).2 t).1 = st.ALBUM_SEARCH ++ t ∧
      (getArtistsCall (getArtistsCall st s).2 t).1 = st.ARTIST_SEARCH ++ t := by
  intro st s t
  exact ⟨rfl, rfl, rfl, rfl, rfl, rfl, rfl, rfl, rfl⟩

/-- C3: navigating `['A', 'B', 'C']` into a structure whose level after
`A` lacks `B` does not produce a `RequestError` naming `B`: the source
constructs `RequestError` with a single argument while its `__init__`
requires a message and a code, so the raise itself fails with a
TypeError.  Evaluated here at the failing input
`data = {'A': {'x': 0}}, keys = ['A', 'B', 'C']`. -/
theorem c3_missing_key_raises_type_error :
    getPayloadData (PyData.obj [("A", PyData.obj [("x", PyData.int 0)])])
        ["A", "B", "C"] =
      Except.error (PyErr.typeError "__init__() takes exactly 3 arguments") := by
  rfl

/-- C5: a dispatched call whose response carries a non-success status and an
Error body holding Message and Code raises RequestError with exactly that
message and code; a call with the success status returns the parsed body
untouched. -/
theorem c5_dispatcher_classification :
    ∀ (status : Nat) (result errBody msg code : PyData),
      (status ≠ 200 →
        pySubscript result "Error" = Except.ok errBody →
        pySubscript errBody "Message" = Except.ok msg →
        pySubscript errBody "Code" = Except.ok code →
        pyGet status result = Except.error (PyErr.requestError msg code)) ∧
      pyGet 200 result = Except.ok result := by
  intro status result errBody msg code
  constructor
  · intro hs h1 h2 h3
    simp [pyGet, hs, h1, h2, h3, mkRequestError]
  · simp [pyGet]

/-- Witness for C5 at the concrete response status 500 with body
`{'Error': {'Message': 'm', 'Code': 'c'}}`, and at a 200 response. -/
theorem c5_dispatcher_classification_witness :
    pyGet 500 (PyData.obj [("Error", PyData.obj
        [("Message", PyData.str "m"), ("Code", PyData.str "c")])]) =
      Except.error (PyErr.requestError (PyData.str "m") (PyData.str "c")) ∧
    pyGet 200 (PyData.str "body") = Except.ok (PyData.str "body") :=
  ⟨(c5_dispatcher_classification 500
      (PyData.obj [("Error", PyData.obj
        [("Message", PyData.str "m"), ("Code", PyData.str "c")])])
      (PyData.obj [("Message", PyData.str "m"), ("Code", PyData.str "c")])
      (PyData.str "m") (PyData.str "c")).1 (by decide) rfl rfl rfl,
   (c5_dispatcher_classification 200 (PyData.str "body")
      (PyData.str "body") (PyData.str "m") (PyData.str "c")).2⟩

/-- C4 fails as stated: a network failure during `browser.open` is not
converted into a `False` return — `authenticate` installs no exception
handler, so the transport error propagates. -/
theorem c4_counterexample :
    authenticate Net.down = Except.error PyErr.urlError ∧
    authenticate Net.down ≠ Except.ok (false, none) := by
  exact ⟨rfl, by intro h; cases h⟩

/-- C4 (amended): only field-extraction failure surfaces as the boolean
False — when the page and form are reached and fewer than four pattern
matches occur in the body, `authenticate` returns False and persists
nothing; a network failure or a missing sign-in form instead raises. -/
theorem c4_failure_semantics (page : SignInPage) :
    authenticate Net.down = Except.error PyErr.urlError ∧
    (page.hasSignInForm = false →
      authenticate (Net.up page) = Except.error PyErr.formNotFound) ∧
    (page.hasSignInForm = true → countMatches page.body < 4 →
      authenticate (Net.up page) = Except.ok (false, none)) := by
  refine ⟨rfl, ?_, ?_⟩
  · intro hform
    simp [authenticate, hform]
  · intro hform hcount
    have hscan := scanBody_count page.body 0 ⟨none, none, none, none⟩ (by omega)
    simp [authenticate, hform, hscan]
    omega

/-- Witness for C4 (amended) at a form-less page and at a page whose body
contains a single matching line. -/
theorem c4_failure_semantics_witness :
    authenticate (Net.up ⟨false, [], []⟩) = Except.error PyErr.formNotFound ∧
    authenticate (Net.up ⟨true, [BodyLine.matched AuthField.customerId "z"], []⟩) =
      Except.ok (false, none) :=
  ⟨(c4_failure_semantics ⟨false, [], []⟩).2.1 rfl,
   (c4_failure_semantics ⟨true, [BodyLine.matched AuthField.customerId "z"], []⟩).2.2
      rfl (by decide)⟩

/-- hexCharsAux on the draw range [65536, 131072) yields a leading `1`
followed by the four hexadecimal digits of the low 16 bits. -/
theorem hexCharsAux_range (g n : Nat) (h1 : 65536 ≤ n) (h2 : n < 131072) :
    hexCharsAux (g + 5) n =
      ['1', Nat.digitChar (n / 4096 % 16), Nat.digitChar (n / 256 % 16),
       Nat.digitChar (n / 16 % 16), Nat.digitChar (n % 16)] := by
  have c1 : ¬ n < 16 := by omega
  have c2 : ¬ n / 16 < 16 := by omega
  have c3 : ¬ n / 16 / 16 < 16 := by omega
  have c4 : ¬ n / 16 / 16 / 16 < 16 := by omega
  have c5 : n / 16 / 16 / 16 / 16 < 16 := by omega
  have e5 : n / 16 / 16 / 16 / 16 = 1 := by omega
  have e4 : n / 16 / 16 / 16 = n / 4096 := by omega
  have e3 : n / 16 / 16 = n / 256 := by omega
  simp only [hexCharsAux, c1, c2, c3, c4, c5, if_false, if_true]
  rw [e5, e4, e3]
  rfl

/-- hexChars on the draw range [65536, 131072) is a leading `1` followed by
the four hexadecimal digits of the low 16 bits. -/
theorem hexChars_range (n : Nat) (h1 : 65536 ≤ n) (h2 : n < 131072) :
    hexChars n =
      ['1', Nat.digitChar (n / 4096 % 16), Nat.digitChar (n / 256 % 16),
       Nat.digitChar (n / 16 % 16), Nat.digitChar (n % 16)] := by
  unfold hexChars
  have h : n + 1 = (n - 4) + 5 := by omega
  rw [h]
  exact hexCharsAux_range (n - 4) n h1 h2

/-- getRand on the draw range [65536, 131072) is the zero-padded four-digit
hexadecimal rendering of the draw modulo 65536: the slice `[3:]` strips the
`0x` prefix together with the leading `1` digit. -/
theorem getRand_eq (n : Nat) (h1 : 65536 ≤ n) (h2 : n < 131072) :
    getRand n = pad4Hex (n % 65536) := by
  unfold getRand pyHexChars pad4Hex
  rw [hexChars_range n h1 h2]
  have d1 : n / 4096 % 16 = n % 65536 / 4096 % 16 := by omega
  have d2 : n / 256 % 16 = n % 65536 / 256 % 16 := by omega
  have d3 : n / 16 % 16 = n % 65536 / 16 % 16 := by omega
  have d4 : n % 16 = n % 65536 % 16 := by omega
  simp only [List.drop, d1, d2, d3, d4]

/-- C9: for draws in [65536, 131072) every request-id segment is exactly
the four-character zero-padded lowercase-hexadecimal rendering of the draw
modulo 65536, so the identifier is always exactly 36 characters long. -/
theorem c9_request_id_shape (draws : Fin 7 → Nat)
    (h : ∀ i, 65536 ≤ draws i ∧ draws i < 131072) :
    (∀ i, getRand (draws i) = pad4Hex (draws i % 65536) ∧
      (getRand (draws i)).length = 4) ∧
    (makeRequestId draws).length = 36 := by
  have hseg : ∀ i, getRand (draws i) = pad4Hex (draws i % 65536) := fun i =>
    getRand_eq (draws i) (h i).1 (h i).2
  have hlen : ∀ i, (getRand (draws i)).length = 4 := by
    intro i
    rw [hseg i]
    rfl
  refine ⟨fun i => ⟨hseg i, hlen i⟩, ?_⟩
  unfold makeRequestId
  simp [String.length_append, hlen, show ("-" : String).length = 1 from rfl,
        show ("-dmcp-" : String).length = 6 from rfl]

/-- Witness for C9 with all seven draws equal to 100000. -/
theorem c9_request_id_shape_witness :
    (makeRequestId (fun _ => 100000)).length = 36 :=
  (c9_request_id_shape (fun _ => 100000)
    (by intro i; show 65536 ≤ 100000 ∧ 100000 < 131072; decide)).2

/-- C6 fails as stated: with every draw equal to 65536 the produced
identifier differs from the one built out of plain hexadecimal renderings
without only the `0x` prefix — the slice `[3:]` also strips the leading
`1` digit of each segment. -/
theorem c6_counterexample :
    makeRequestId (fun _ => 65536) = "00000000-0000-dmcp-0000-000000000000" ∧
    specRequestId (fun _ => 65536) =
      "1000010000-10000-dmcp-10000-100001000010000" ∧
    makeRequestId (fun _ => 65536) ≠ specRequestId (fun _ => 65536) := by
  refine ⟨by decide, by decide, by decide⟩

/-- C6 (amended): for draws in [65536, 131072) the identifier consists of
seven segments joined per the literal pattern `%s%s-%s-dmcp-%s-%s%s%s`,
each segment being the lowercase-hexadecimal rendering of the draw with
both the `0x` prefix and the constant leading `1` digit stripped, i.e. the
zero-padded four-digit rendering of the draw modulo 65536. -/
theorem c6_request_id_format (draws : Fin 7 → Nat)
    (h : ∀ i, 65536 ≤ draws i ∧ draws i < 131072) :
    makeRequestId draws =
      pad4Hex (draws 0 % 65536) ++ pad4Hex (draws 1 % 65536) ++ "-" ++
      pad4Hex (draws 2 % 65536) ++ "-dmcp-" ++ pad4Hex (draws 3 % 65536) ++ "-" ++
      pad4Hex (draws 4 % 65536) ++ pad4Hex (draws 5 % 65536) ++
      pad4Hex (draws 6 % 65536) := by
  unfold makeRequestId
  rw [getRand_eq _ (h 0).1 (h 0).2, getRand_eq _ (h 1).1 (h 1).2,
      getRand_eq _ (h 2).1 (h 2).2, getRand_eq _ (h 3).1 (h 3).2,
      getRand_eq _ (h 4).1 (h 4).2, getRand_eq _ (h 5).1 (h 5).2,
      getRand_eq _ (h 6).1 (h 6).2]

/-- Witness for C6 (amended) with all seven draws equal to 70000. -/
theorem c6_request_id_format_witness :
    makeRequestId (fun _ => 70000) =
      pad4Hex (70000 % 65536) ++ pad4Hex (70000 % 65536) ++ "-" ++
      pad4Hex (70000 % 65536) ++ "-dmcp-" ++ pad4Hex (70000 % 65536) ++ "-" ++
      pad4Hex (70000 % 65536) ++ pad4Hex (70000 % 65536) ++
      pad4Hex (70000 % 65536) :=
  c6_request_id_format (fun _ => 70000)
    (by intro i; show 65536 ≤ 70000 ∧ 70000 < 131072; decide)

/-- oneIteration describes a single successful iteration of the pagination
loop against a well-formed page envelope: the page's items are yielded and
the envelope's token decides between recursing and stopping. -/
theorem searchLibraryLoop_page {α : Type} (remote : PyData → Nat × PyData)
    (wrap : PyData → α) (fuel : Nat) (tok : PyData) (items : List PyData)
    (next : String) (hr : remote tok = (200, mkPage items next)) :
    searchLibraryLoop remote wrap (fuel + 1) tok =
      if next = "" then SearchOutcome.done [tok] (items.map wrap)
      else prependPage tok (items.map wrap)
        (searchLibraryLoop remote wrap fuel (PyData.str next)) := by
  by_cases h : next = ""
  · simp [searchLibraryLoop, hr, pyGet, getPayloadData, pyContains, pySubscript,
      pyLookup, pyIter, pyTruthy, mkPage, prependPage, h]
  · simp [searchLibraryLoop, hr, pyGet, getPayloadData, pyContains, pySubscript,
      pyLookup, pyIter, pyTruthy, mkPage, prependPage, h]

/-- searchLibraryLoop on an envelope that lacks the `nextResultsToken`
field yields the page's items and then raises KeyError: the token is read
by plain dict subscript, not through the payload navigator. -/
theorem searchLibraryLoop_noToken {α : Type} (remote : PyData → Nat × PyData)
    (wrap : PyData → α) (fuel : Nat) (tok : PyData) (items : List PyData)
    (hr : remote tok = (200, mkPageNoToken items)) :
    searchLibraryLoop remote wrap (fuel + 1) tok =
      SearchOutcome.raised [tok] (items.map wrap)
        (PyErr.keyError "nextResultsToken") := by
  simp [searchLibraryLoop, hr, pyGet, getPayloadData, pyContains, pySubscript,
    pyLookup, pyIter, pyTruthy, mkPageNoToken]

/-- C1: against any scripted remote returning three pages of 50, 50 and 7
items with continuation tokens `t1`, `t2` and the empty string, the engine
yields exactly 107 items in page order (and server-given order within each
page) and issues exactly three calls — the first with the empty initial
token, the third with token `t2`, and none after the empty token is
read. -/
theorem c1_pagination {α : Type} (remote : PyData → Nat × PyData)
    (wrap : PyData → α) (items1 items2 items3 : List PyData) (fuel : Nat)
    (h1 : items1.length = 50) (h2 : items2.length = 50) (h3 : items3.length = 7)
    (r1 : remote (PyData.str "") = (200, mkPage items1 "t1"))
    (r2 : remote (PyData.str "t1") = (200, mkPage items2 "t2"))
    (r3 : remote (PyData.str "t2") = (200, mkPage items3 ""))
    (hf : 3 ≤ fuel) :
    searchLibrary remote wrap fuel =
      SearchOutcome.done [PyData.str "", PyData.str "t1", PyData.str "t2"]
        ((items1 ++ items2 ++ items3).map wrap) ∧
    ((items1 ++ items2 ++ items3).map wrap).length = 107 := by
  obtain ⟨k, rfl⟩ : ∃ k, fuel = k + 3 := ⟨fuel - 3, by omega⟩
  constructor
  · unfold searchLibrary
    rw [show k + 3 = k + 2 + 1 from rfl,
        searchLibraryLoop_page remote wrap (k + 2) _ items1 "t1" r1,
        if_neg (by decide)]
    rw [show k + 2 = k + 1 + 1 from rfl,
        searchLibraryLoop_page remote wrap (k + 1) _ items2 "t2" r2,
        if_neg (by decide)]
    rw [searchLibraryLoop_page remote wrap k _ items3 "" r3, if_pos rfl]
    simp [prependPage, List.map_append]
  · simp [h1, h2, h3]

/-- Witness for C1 against the concrete scripted remote with 50, 50 and 7
replicated items. -/
theorem c1_pagination_witness :
    searchLibrary scriptedRemote (fun x => x) 3 =
      SearchOutcome.done [PyData.str "", PyData.str "t1", PyData.str "t2"]
        ((pageItems1 ++ pageItems2 ++ pageItems3).map (fun x => x)) ∧
    ((pageItems1 ++ pageItems2 ++ pageItems3).map (fun x => x)).length = 107 :=
  c1_pagination scriptedRemote (fun x => x) pageItems1 pageItems2 pageItems3 3
    (by simp [pageItems1]) (by simp [pageItems2]) (by simp [pageItems3])
    rfl rfl rfl (by omega)

/-- C7 fails as stated for an absent token: when the result envelope lacks
`nextResultsToken`, the engine does not end cleanly after the page's items
— it yields them and then raises KeyError, because the token is read by
plain subscript. -/
theorem c7_counterexample :
    searchLibrary tokenlessRemote (fun x => x) 1 =
      SearchOutcome.raised [PyData.str ""] [PyData.str "only"]
        (PyErr.keyError "nextResultsToken") := by
  rfl

/-- C7 (amended): a page whose envelope carries an empty `nextResultsToken`
ends the sequence after that page's items, with no error; a non-empty token
drives the next call; an envelope with the token absent yields the page's
items and then raises KeyError. -/
theorem c7_token_transition {α : Type} (remote : PyData → Nat × PyData)
    (wrap : PyData → α) (fuel : Nat) (tok : PyData) (items : List PyData)
    (next : String) :
    (remote tok = (200, mkPage items "") →
      searchLibraryLoop remote wrap (fuel + 1) tok =
        SearchOutcome.done [tok] (items.map wrap)) ∧
    (remote tok = (200, mkPage items next) → next ≠ "" →
      searchLibraryLoop remote wrap (fuel + 1) tok =
        prependPage tok (items.map wrap)
          (searchLibraryLoop remote wrap fuel (PyData.str next))) ∧
    (remote tok = (200, mkPageNoToken items) →
      searchLibraryLoop remote wrap (fuel + 1) tok =
        SearchOutcome.raised [tok] (items.map wrap)
          (PyErr.keyError "nextResultsToken")) := by
  refine ⟨?_, ?_, ?_⟩
  · intro hr
    rw [searchLibraryLoop_page remote wrap fuel tok items "" hr, if_pos rfl]
  · intro hr hne
    rw [searchLibraryLoop_page remote wrap fuel tok items next hr, if_neg hne]
  · intro hr
    exact searchLibraryLoop_noToken remote wrap fuel tok items hr

/-- Witness for C7 (amended) against the concrete two-page and tokenless
remotes. -/
theorem c7_token_transition_witness :
    searchLibraryLoop twoPageRemote (fun x => x) 1 (PyData.str "more") =
      SearchOutcome.done [PyData.str "more"] ([PyData.str "b"].map (fun x => x)) ∧
    searchLibraryLoop twoPageRemote (fun x => x) 1 (PyData.str "") =
      prependPage (PyData.str "") ([PyData.str "a"].map (fun x => x))
        (searchLibraryLoop twoPageRemote (fun x => x) 0 (PyData.str "more")) ∧
    searchLibraryLoop tokenlessRemote (fun x => x) 1 (PyData.str "go") =
      SearchOutcome.raised [PyData.str "go"] ([PyData.str "only"].map (fun x => x))
        (PyErr.keyError "nextResultsToken") :=
  ⟨(c7_token_transition twoPageRemote (fun x => x) 0 (PyData.str "more")
      [PyData.str "b"] "unused").1 rfl,
   (c7_token_transition twoPageRemote (fun x => x) 0 (PyData.str "")
      [PyData.str "a"] "more").2.1 rfl (by decide),
   (c7_token_transition tokenlessRemote (fun x => x) 0 (PyData.str "go")
      [PyData.str "only"] "unused").2.2 rfl⟩

/-- parseDec over a snoc evaluates the last digit. -/
theorem parseDec_append (l : List Char) (c : Char) :
    parseDec (l ++ [c]) = parseDec l * 10 + (c.toNat - 48) := by
  simp [parseDec, List.foldl_append]

/-- digitChar of a digit shifts back by the code of `0`. -/
theorem digitChar_toNat (m : Nat) (h : m < 10) :
    (Nat.digitChar m).toNat - 48 = m := by
  interval_cases m <;> rfl

/-- parseDec undoes decCharsAux whenever the fuel is ample. -/
theorem parseDec_decCharsAux (fuel : Nat) :
    ∀ n, n < fuel → parseDec (decCharsAux fuel n) = n := by
  induction fuel with
  | zero => intro n h; omega
  | succ f ih =>
    intro n h
    by_cases h10 : n < 10
    · simp only [decCharsAux, if_pos h10]
      simp [parseDec]
      exact digitChar_toNat n h10
    · simp only [decCharsAux, if_neg h10]
      rw [parseDec_append, ih (n / 10) (by omega), digitChar_toNat (n % 10) (by omega)]
      omega

/-- parseDec undoes decChars. -/
theorem parseDec_decChars (n : Nat) : parseDec (decChars n) = n :=
  parseDec_decCharsAux (n + 1) n (by omega)

/-- decChars is injective. -/
theorem decChars_inj (i j : Nat) (h : decChars i = decChars j) : i = j := by
  have hp := congrArg parseDec h
  rwa [parseDec_decChars, parseDec_decChars] at hp

/-- digitChar of a digit is never a dot. -/
theorem digitChar_ne_dot (m : Nat) (h : m < 10) : Nat.digitChar m ≠ '.' := by
  interval_cases m <;> decide

/-- decCharsAux produces no dots. -/
theorem decCharsAux_ne_dot (fuel : Nat) :
    ∀ n c, c ∈ decCharsAux fuel n → c ≠ '.' := by
  induction fuel with
  | zero => intro n c hc; simp [decCharsAux] at hc
  | succ f ih =>
    intro n c hc
    by_cases h10 : n < 10
    · simp only [decCharsAux, if_pos h10, List.mem_singleton] at hc
      exact hc ▸ digitChar_ne_dot n h10
    · simp only [decCharsAux, if_neg h10, List.mem_append, List.mem_singleton] at hc
      rcases hc with hc | hc
      · exact ih (n / 10) c hc
      · exact hc ▸ digitChar_ne_dot (n % 10) (by omega)

/-- decChars produces no dots. -/
theorem decChars_ne_dot (n : Nat) : ∀ c ∈ decChars n, c ≠ '.' :=
  fun c hc => decCharsAux_ne_dot (n + 1) n c hc

/-- Two dot-free runs followed by dot-headed tails can be cancelled against
each other. -/
theorem append_dot_cancel :
    ∀ (a b s t : List Char), (∀ c ∈ a, c ≠ '.') → (∀ c ∈ b, c ≠ '.') →
      s.head? = some '.' → t.head? = some '.' → a ++ s = b ++ t →
      a = b ∧ s = t := by
  intro a
  induction a with
  | nil =>
    intro b s t _ hb hs ht h
    cases b with
    | nil => simpa using h
    | cons d bs =>
      exfalso
      simp only [List.nil_append, List.cons_append] at h
      rw [h] at hs
      simp only [List.head?_cons, Option.some.injEq] at hs
      exact hb d (List.mem_cons_self d bs) hs
  | cons c as ih =>
    intro b s t ha hb hs ht h
    cases b with
    | nil =>
      exfalso
      simp only [List.nil_append, List.cons_append] at h
      rw [← h] at ht
      simp only [List.head?_cons, Option.some.injEq] at ht
      exact ha c (List.mem_cons_self c as) ht
    | cons d bs =>
      simp only [List.cons_append, List.cons.injEq] at h
      obtain ⟨rfl, h2⟩ := h
      obtain ⟨hab, hst⟩ := ih bs s t (fun x hx => ha x (List.mem_cons_of_mem c hx))
        (fun x hx => hb x (List.mem_cons_of_mem c hx)) hs ht h2
      exact ⟨by rw [hab], hst⟩

/-- memberKey with a dot-headed suffix determines the index and the
suffix: the digits of the index cannot bleed into the suffix. -/
theorem memberKey_append_inj (p : String) (i j : Nat) (s t : String)
    (hs : s.data.head? = some '.') (ht : t.data.head? = some '.')
    (h : memberKey p i ++ s = memberKey p j ++ t) : i = j ∧ s = t := by
  have hd := congrArg String.data h
  simp only [memberKey, decStr, String.data_append, List.append_assoc] at hd
  have hcan : decChars i ++ s.data = decChars j ++ t.data :=
    List.append_cancel_left (List.append_cancel_left hd)
  obtain ⟨h1, h2⟩ := append_dot_cancel (decChars i) (decChars j) s.data t.data
    (decChars_ne_dot i) (decChars_ne_dot j) hs ht hcan
  exact ⟨decChars_inj i j h1, String.ext h2⟩

/-- memberKey at shifted indices with dot-headed suffixes determines the
unshifted index. -/
theorem memberKey_index_eq (p : String) (i j : Nat) (s t : String)
    (hs : s.data.head? = some '.') (ht : t.data.head? = some '.')
    (h : memberKey p (i + 1) ++ s = memberKey p (j + 1) ++ t) : i = j := by
  have := (memberKey_append_inj p (i + 1) (j + 1) s t hs ht h).1
  omega

/-- dictInsert with a fresh key appends. -/
theorem dictInsert_fresh (d : List (String × String)) (k v : String)
    (hf : ∀ q ∈ d, q.1 ≠ k) : dictInsert d k v = d ++ [(k, v)] := by
  have hany : d.any (fun p => p.1 == k) = false := by
    rw [List.any_eq_false]
    intro q hq
    simp only [beq_iff_eq]
    exact hf q hq
  simp [dictInsert, hany]

/-- Folding dictInsert over pairwise-fresh entries appends them all. -/
theorem foldl_dictInsertKV_fresh :
    ∀ (entries acc : List (String × String)),
      ((acc ++ entries).map Prod.fst).Nodup →
      entries.foldl dictInsertKV acc = acc ++ entries := by
  intro entries
  induction entries with
  | nil => intro acc _; simp
  | cons e rest ih =>
    intro acc h
    rw [List.map_append, List.nodup_append] at h
    obtain ⟨h1, h2, hdisj⟩ := h
    rw [List.map_cons, List.nodup_cons] at h2
    obtain ⟨he, hrest⟩ := h2
    have hfresh : ∀ q ∈ acc, q.1 ≠ e.1 := by
      intro q hq hqe
      apply hdisj (List.mem_map_of_mem Prod.fst hq)
      rw [hqe]
      simp
    rw [List.foldl_cons]
    rw [show dictInsertKV acc e = acc ++ [e] from dictInsert_fresh acc e.1 e.2 hfresh]
    rw [ih (acc ++ [e]) (by
      rw [List.map_append, List.nodup_append]
      refine ⟨?_, hrest, ?_⟩
      · rw [List.map_append, List.nodup_append]
        refine ⟨h1, by simp, ?_⟩
        intro x hx
        simp only [List.map_cons, List.map_nil, List.mem_singleton]
        intro hxe
        exact hdisj hx (by rw [hxe]; simp)
      · intro x hx
        rw [List.map_append, List.mem_append] at hx
        rcases hx with hx | hx
        · intro hmem
          exact hdisj hx (by simp only [List.map_cons]; exact List.mem_cons_of_mem _ hmem)
        · simp only [List.map_cons, List.map_nil, List.mem_singleton] at hx
          intro hmem
          exact he (hx ▸ hmem))]
    simp

/-- A fold that inserts a block of entries per element equals the fold of
the flattened entry list. -/
theorem foldl_flatMap_dictInsert {β : Type} (g : β → List (String × String)) :
    ∀ (l : List β) (acc : List (String × String)),
      l.foldl (fun d x => (g x).foldl dictInsertKV d) acc =
      (l.flatMap g).foldl dictInsertKV acc := by
  intro l
  induction l with
  | nil => intro acc; simp
  | cons x xs ih => intro acc; simp [List.flatMap_cons, List.foldl_append, ih]

/-- Successive enumeration entries carry distinct indices. -/
theorem enum_pairwise_fst {β : Type} (l : List β) :
    List.Pairwise (fun a b => a.1 ≠ b.1) l.enum := by
  have hr := List.pairwise_lt_range l.length
  rw [← List.enum_map_fst l] at hr
  exact (List.pairwise_map.mp hr).imp (fun h => Nat.ne_of_lt h)

/-- memberKey equations with dot-headed suffixes force equal suffixes. -/
theorem memberKey_suffix_eq (p : String) (i j : Nat) (s t : String)
    (h : memberKey p i ++ s = memberKey p j ++ t)
    (hs : s.data.head? = some '.') (ht : t.data.head? = some '.') : s = t :=
  (memberKey_append_inj p i j s t hs ht h).2

/-- memberKey equations with dot-headed suffixes force equal indices. -/
theorem memberKey_idx_eq (p : String) (i j : Nat) (s t : String)
    (h : memberKey p (i + 1) ++ s = memberKey p (j + 1) ++ t)
    (hs : s.data.head? = some '.') (ht : t.data.head? = some '.') : i = j := by
  have := (memberKey_append_inj p (i + 1) (j + 1) s t hs ht h).1
  omega

/-- The keys generated by _build_search_criteria are pairwise distinct. -/
theorem searchKeys_nodup (search : List Crit) (p : String) :
    ((search.enum.flatMap (searchEntries p)).map Prod.fst).Nodup := by
  rw [List.map_flatMap, List.nodup_flatMap]
  constructor
  · intro ic _
    simp only [searchEntries, List.map_cons, List.map_nil]
    refine List.nodup_cons.mpr ⟨?_, List.nodup_cons.mpr ⟨?_, by simp⟩⟩
    · intro hm
      rcases List.mem_cons.mp hm with hEq | hm2
      · exact absurd (memberKey_suffix_eq p _ _ _ _ hEq rfl rfl) (by decide)
      · rcases List.mem_cons.mp hm2 with hEq | hm3
        · exact absurd (memberKey_suffix_eq p _ _ _ _ hEq rfl rfl) (by decide)
        · simp at hm3
    · intro hm
      rcases List.mem_cons.mp hm with hEq | hm2
      · exact absurd (memberKey_suffix_eq p _ _ _ _ hEq rfl rfl) (by decide)
      · simp at hm2
  · refine (enum_pairwise_fst search).imp ?_
    intro a b hne
    intro x hxa hxb
    simp only [Function.onFun, searchEntries, List.map_cons, List.map_nil,
      List.mem_cons, List.not_mem_nil, or_false] at hxa hxb
    rcases hxa with h | h | h <;> rcases hxb with h2 | h2 | h2 <;>
      exact hne (memberKey_idx_eq p a.1 b.1 _ _ (h.symm.trans h2) rfl rfl)

/-- buildSearchCriteria, written as the flattened list of its entries: the
dict insertions never collide, so the dict is exactly the enumeration of
per-criterion triples in input order. -/
theorem buildSearchCriteria_eq (search : List Crit) (p : String) :
    buildSearchCriteria search p = search.enum.flatMap (searchEntries p) := by
  have hstep : buildSearchCriteria search p =
      (search.enum.flatMap (searchEntries p)).foldl dictInsertKV [] := by
    rw [← foldl_flatMap_dictInsert (searchEntries p) search.enum []]
    rfl
  rw [hstep]
  have := foldl_dictInsertKV_fresh (search.enum.flatMap (searchEntries p)) []
    (by simpa using searchKeys_nodup search p)
  simpa using this

/-- Association lookup finds the value of any entry of a dict whose keys
are pairwise distinct. -/
theorem pyLookupS_of_mem :
    ∀ (l : List (String × String)) (k v : String),
      (l.map Prod.fst).Nodup → (k, v) ∈ l → pyLookupS l k = some v := by
  intro l
  induction l with
  | nil => intro k v _ hm; cases hm
  | cons e rest ih =>
    intro k v hnd hm
    obtain ⟨ek, ev⟩ := e
    rw [List.map_cons, List.nodup_cons] at hnd
    rcases List.mem_cons.mp hm with he | hm2
    · injection he with h1 h2
      subst h1
      subst h2
      simp [pyLookupS]
    · have hk : k ∈ rest.map Prod.fst := by
        simpa using List.mem_map_of_mem Prod.fst hm2
      have hne : ¬ ek = k := fun hEq => hnd.1 (hEq ▸ hk)
      simp only [pyLookupS, if_neg hne]
      exact ih k v hnd.2 hm2

/-- Each per-criterion triple is a block of the flattened entry list. -/
theorem searchEntries_mem (search : List Crit) (p : String) (i : Nat)
    (h : i < search.length) (kv : String × String)
    (hkv : kv ∈ searchEntries p (i, search[i])) :
    kv ∈ search.enum.flatMap (searchEntries p) := by
  refine List.mem_flatMap.mpr ⟨(i, search[i]), ?_, hkv⟩
  have hlen : i < search.enum.length := by simpa [List.enum_length] using h
  have := List.getElem_enum search i hlen
  exact this ▸ List.getElem_mem hlen

/-- Flattened search entries have three pairs per criterion. -/
theorem flatMap_searchEntries_length (p : String) :
    ∀ l : List (Nat × Crit), (l.flatMap (searchEntries p)).length = 3 * l.length := by
  intro l
  induction l with
  | nil => simp
  | cons x xs ih =>
    simp [List.flatMap_cons, searchEntries, ih]
    omega

/-- C2: for any ordered list of N search criteria and any key prefix, the
encoder produces exactly 3·N wire keys, pairwise distinct, indexed 1..N
contiguously in input order; the i-th triple binds attributeName,
comparisonType and attributeValue to the i-th criterion's fields, a
two-field criterion binding attributeValue to the empty string, never a
missing key. -/
theorem c2_search_criteria_encoding (search : List Crit) (p : String) :
    (buildSearchCriteria search p).length = 3 * search.length ∧
    ((buildSearchCriteria search p).map Prod.fst).Nodup ∧
    (∀ i (h : i < search.length),
      pyLookupS (buildSearchCriteria search p)
          (memberKey p (i + 1) ++ ".attributeName") = some (search[i].attrName) ∧
      pyLookupS (buildSearchCriteria search p)
          (memberKey p (i + 1) ++ ".comparisonType") = some (search[i].compType) ∧
      pyLookupS (buildSearchCriteria search p)
          (memberKey p (i + 1) ++ ".attributeValue") = some (search[i].attrValue)) ∧
    (∀ i (h : i < search.length) (a b : String), search[i] = Crit.mk2 a b →
      pyLookupS (buildSearchCriteria search p)
          (memberKey p (i + 1) ++ ".attributeValue") = some "") ∧
    (∀ kv ∈ buildSearchCriteria search p, ∃ i, i < search.length ∧
      (kv.1 = memberKey p (i + 1) ++ ".attributeName" ∨
       kv.1 = memberKey p (i + 1) ++ ".comparisonType" ∨
       kv.1 = memberKey p (i + 1) ++ ".attributeValue")) := by
  have hnd : ((buildSearchCriteria search p).map Prod.fst).Nodup := by
    rw [buildSearchCriteria_eq]
    exact searchKeys_nodup search p
  have hfind : ∀ (i : Nat) (h : i < search.length), ∀ kv : String × String,
      kv ∈ searchEntries p (i, search[i]) →
      pyLookupS (buildSearchCriteria search p) kv.1 = some kv.2 := by
    intro i h kv hkv
    apply pyLookupS_of_mem _ _ _ hnd
    rw [buildSearchCriteria_eq]
    exact searchEntries_mem search p i h kv hkv
  refine ⟨?_, hnd, ?_, ?_, ?_⟩
  · rw [buildSearchCriteria_eq, flatMap_searchEntries_length, List.enum_length]
  · intro i h
    exact ⟨hfind i h (memberKey p (i + 1) ++ ".attributeName", search[i].attrName)
             (by simp [searchEntries]),
           hfind i h (memberKey p (i + 1) ++ ".comparisonType", search[i].compType)
             (by simp [searchEntries]),
           hfind i h (memberKey p (i + 1) ++ ".attributeValue", search[i].attrValue)
             (by simp [searchEntries])⟩
  · intro i h a b hmk
    have := hfind i h (memberKey p (i + 1) ++ ".attributeValue", search[i].attrValue)
      (by simp [searchEntries])
    rw [hmk] at this
    exact this
  · intro kv hm
    rw [buildSearchCriteria_eq] at hm
    obtain ⟨ic, hic, hkv⟩ := List.mem_flatMap.mp hm
    refine ⟨ic.1, ?_, ?_⟩
    · have : ic.1 ∈ List.range search.length := by
        rw [← List.enum_map_fst search]
        exact List.mem_map_of_mem Prod.fst hic
      simpa using this
    · simp only [searchEntries, List.mem_cons, List.not_mem_nil, or_false] at hkv
      rcases hkv with h | h | h <;> simp [h]

/-- Witness for C2 on the one-element criteria list whose criterion has
only two fields. -/
theorem c2_search_criteria_encoding_witness :
    (buildSearchCriteria [Crit.mk2 "trackStatus" "IS_NULL"] "searchCriteria").length =
      3 * ([Crit.mk2 "trackStatus" "IS_NULL"] : List Crit).length ∧
    pyLookupS (buildSearchCriteria [Crit.mk2 "trackStatus" "IS_NULL"] "searchCriteria")
        (memberKey "searchCriteria" (0 + 1) ++ ".attributeValue") = some "" :=
  ⟨(c2_search_criteria_encoding [Crit.mk2 "trackStatus" "IS_NULL"] "searchCriteria").1,
   (c2_search_criteria_encoding [Crit.mk2 "trackStatus" "IS_NULL"] "searchCriteria").2.2.2.1
      0 (by decide) "trackStatus" "IS_NULL" rfl⟩

/-- The keys generated by _build_sort_criteria are pairwise distinct. -/
theorem sortKeys_nodup (sort : List (String × String)) :
    ((sort.enum.flatMap sortEntries).map Prod.fst).Nodup := by
  rw [List.map_flatMap, List.nodup_flatMap]
  constructor
  · intro ic _
    simp only [sortEntries, List.map_cons, List.map_nil]
    refine List.nodup_cons.mpr ⟨?_, by simp⟩
    intro hm
    rcases List.mem_cons.mp hm with hEq | hm2
    · exact absurd (memberKey_suffix_eq "sortCriteriaList" _ _ _ _ hEq rfl rfl) (by decide)
    · simp at hm2
  · refine (enum_pairwise_fst sort).imp ?_
    intro a b hne
    intro x hxa hxb
    simp only [Function.onFun, sortEntries, List.map_cons, List.map_nil,
      List.mem_cons, List.not_mem_nil, or_false] at hxa hxb
    rcases hxa with h | h <;> rcases hxb with h2 | h2 <;>
      exact hne (memberKey_idx_eq "sortCriteriaList" a.1 b.1 _ _ (h.symm.trans h2) rfl rfl)

/-- buildSortCriteria, written as the flattened list of its entries. -/
theorem buildSortCriteria_eq (sort : List (String × String)) :
    buildSortCriteria sort = sort.enum.flatMap sortEntries := by
  have hstep : buildSortCriteria sort =
      (sort.enum.flatMap sortEntries).foldl dictInsertKV [] := by
    rw [← foldl_flatMap_dictInsert sortEntries sort.enum []]
    rfl
  rw [hstep]
  have := foldl_dictInsertKV_fresh (sort.enum.flatMap sortEntries) []
    (by simpa using sortKeys_nodup sort)
  simpa using this

/-- Flattened sort entries have two pairs per criterion. -/
theorem flatMap_sortEntries_length :
    ∀ l : List (Nat × (String × String)), (l.flatMap sortEntries).length = 2 * l.length := by
  intro l
  induction l with
  | nil => simp
  | cons x xs ih =>
    simp [List.flatMap_cons, sortEntries, ih]
    omega

/-- Each per-sort-criterion pair is a block of the flattened entry list. -/
theorem sortEntries_mem (sort : List (String × String)) (i : Nat)
    (h : i < sort.length) (kv : String × String)
    (hkv : kv ∈ sortEntries (i, sort[i])) :
    kv ∈ sort.enum.flatMap sortEntries := by
  refine List.mem_flatMap.mpr ⟨(i, sort[i]), ?_, hkv⟩
  have hlen : i < sort.enum.length := by simpa [List.enum_length] using h
  have := List.getElem_enum sort i hlen
  exact this ▸ List.getElem_mem hlen

/-- C8: for any ordered list of N sort criteria the encoder produces
exactly 2·N wire keys, pairwise distinct, with 1-based indices assigned in
input order: the i-th pair binds sortColumn and sortType to the i-th
criterion's column and direction, index 1 corresponding to the first input
element. -/
theorem c8_sort_criteria_encoding (sort : List (String × String)) :
    (buildSortCriteria sort).length = 2 * sort.length ∧
    ((buildSortCriteria sort).map Prod.fst).Nodup ∧
    (∀ i (h : i < sort.length),
      pyLookupS (buildSortCriteria sort)
          (memberKey "sortCriteriaList" (i + 1) ++ ".sortColumn") = some (sort[i].1) ∧
      pyLookupS (buildSortCriteria sort)
          (memberKey "sortCriteriaList" (i + 1) ++ ".sortType") = some (sort[i].2)) ∧
    (∀ kv ∈ buildSortCriteria sort, ∃ i, i < sort.length ∧
      (kv.1 = memberKey "sortCriteriaList" (i + 1) ++ ".sortColumn" ∨
       kv.1 = memberKey "sortCriteriaList" (i + 1) ++ ".sortType")) := by
  have hnd : ((buildSortCriteria sort).map Prod.fst).Nodup := by
    rw [buildSortCriteria_eq]
    exact sortKeys_nodup sort
  have hfind : ∀ (i : Nat) (h : i < sort.length), ∀ kv : String × String,
      kv ∈ sortEntries (i, sort[i]) →
      pyLookupS (buildSortCriteria sort) kv.1 = some kv.2 := by
    intro i h kv hkv
    apply pyLookupS_of_mem _ _ _ hnd
    rw [buildSortCriteria_eq]
    exact sortEntries_mem sort i h kv hkv
  refine ⟨?_, hnd, ?_, ?_⟩
  · rw [buildSortCriteria_eq, flatMap_sortEntries_length, List.enum_length]
  · intro i h
    exact ⟨hfind i h (memberKey "sortCriteriaList" (i + 1) ++ ".sortColumn", sort[i].1)
             (by simp [sortEntries]),
           hfind i h (memberKey "sortCriteriaList" (i + 1) ++ ".sortType", sort[i].2)
             (by simp [sortEntries])⟩
  · intro kv hm
    rw [buildSortCriteria_eq] at hm
    obtain ⟨ic, hic, hkv⟩ := List.mem_flatMap.mp hm
    refine ⟨ic.1, ?_, ?_⟩
    · have : ic.1 ∈ List.range sort.length := by
        rw [← List.enum_map_fst sort]
        exact List.mem_map_of_mem Prod.fst hic
      simpa using this
    · simp only [sortEntries, List.mem_cons, List.not_mem_nil, or_false] at hkv
      rcases hkv with h | h <;> simp [h]

/-- Witness for C8 on the source's default song sort list. -/
theorem c8_sort_criteria_encoding_witness :
    (buildSortCriteria [("sortTitle", "ASC")]).length =
      2 * ([("sortTitle", "ASC")] : List (String × String)).length ∧
    pyLookupS (buildSortCriteria [("sortTitle", "ASC")])
        (memberKey "sortCriteriaList" (0 + 1) ++ ".sortColumn") = some "sortTitle" :=
  ⟨(c8_sort_criteria_encoding [("sortTitle", "ASC")]).1,
   ((c8_sort_criteria_encoding [("sortTitle", "ASC")]).2.2.1 0 (by decide)).1⟩
